import Mathlib

/-!
Shallow embedding of the FPS simulation-validation dashboard's server routes.

Sources embedded here:
* `src/frontend/src/routes/validation-status/+server.ts` and
  `src/unnamed/part_000` — the validation-status endpoint: a mock report
  generator for serverless deployments (`generateMockValidationStatus`) and a
  local-pipeline path whose `close` handler builds a hard-coded layer list and
  computes an overall score and status.
* `src/unnamed/part_001` — the sim endpoint's mock trace generator
  (`generateMockSimData`): 100 samples at `t = i * 0.2` with the spiral-ratio
  driver, global signal `S` and center signal `C`.
* `src/unnamed/part_002` — the sim.json endpoint without mock fallbacks: all
  failure paths resolve to a structured JSON error record.

Numbers carried by reports are modelled as rationals (the TypeScript values
are all decimal literals and exact small-denominator arithmetic on them);
the simulated time series uses real numbers since it involves `sin`, `cos`
and `exp`.  `new Date().toISOString()` is modelled as a string parameter.
-/

namespace FPS

/-- Layer status union type from the TypeScript sources:
`'pass' | 'fail' | 'not_implemented' | 'partial'`.  The last two constructor
names are adjusted because their TypeScript spellings are reserved words in
Lean. -/
inductive LayerStatus where
  | pass
  | fail
  | notImplemented
  | partialStatus
  deriving DecidableEq, BEq

/-- Overall status union type: `'pass' | 'fail'`. -/
inductive OverallStatus where
  | pass
  | fail
  deriving DecidableEq, BEq

/-- JSON-like values, used to embed the `details: any` payloads verbatim. -/
inductive JVal where
  | jNull
  | jBool (b : Bool)
  | jNum (q : ℚ)
  | jStr (s : String)
  | jArr (xs : List JVal)
  | jObj (fields : List (String × JVal))

/-- Field lookup in a JSON object value. -/
def jLookup : JVal → String → Option JVal
  | .jObj fields, key => fields.lookup key
  | _, _ => none

/-- `interface ValidationLayer` from the TypeScript sources. -/
structure ValidationLayer where
  id : ℕ
  name : String
  status : LayerStatus
  details : JVal
  description : String
  requirement : String

/-- `interface ValidationStatus` from the TypeScript sources. -/
structure ValidationStatus where
  overall_status : OverallStatus
  overall_score : ℚ
  layers : List ValidationLayer
  last_updated : String

/-- The five-layer list hard-coded inside `generateMockValidationStatus`
(`src/unnamed/part_000`, lines 23–107). -/
def mockLayers : List ValidationLayer :=
  [ { id := 1
      name := "Code-level Correctness"
      status := .partialStatus
      description := "Unit & property tests for each formula"
      requirement := "pytest -q returns 0"
      details := .jObj
        [ ("total_tests", .jNum 12)
        , ("passed_tests", .jNum 9)
        , ("failed_tests", .jNum 3)
        , ("failures", .jArr
            [ .jStr "sigma bounds (hitting 0 and 1 exactly)"
            , .jStr "tanh bounds (hitting ±1 exactly)"
            , .jStr "property test bounds violations" ])
        , ("note", .jStr "Mock data - Python validation not available in serverless environment") ] }
  , { id := 2
      name := "Simulation Fidelity"
      status := .pass
      description := "Golden run byte-for-byte reproducibility"
      requirement := "SHA-256 hashes match reference"
      details := .jObj
        [ ("golden_run_implemented", .jBool true)
        , ("hash_validation_implemented", .jBool true)
        , ("reference_hashes_exist", .jBool true)
        , ("csv_hash", .jStr "121af74e644fe3ff647a52cb638844f56fc3ac337fef336549eacb207dbd759c")
        , ("png_hash", .jStr "02ceae783b5df8466d4d04b0b0d7d877c1534565fabe1b1b933134fa91d518e8")
        , ("note", .jStr "Mock data - simulated validation results") ] }
  , { id := 3
      name := "Metric Compliance"
      status := .partialStatus
      description := "All 7 quantitative criteria pass"
      requirement := "All assertions pass, empty criteria_failures.csv"
      details := .jObj
        [ ("pass_rate", .jNum 0.857)
        , ("passed_metrics", .jNum 6)
        , ("total_metrics", .jNum 7)
        , ("failed_metrics", .jArr [.jStr "fluidity"])
        , ("fluidity_variance", .jNum 0.012)
        , ("fluidity_threshold", .jNum 0.01)
        , ("stability_percentage", .jNum 0.96)
        , ("stability_threshold", .jNum 0.95)
        , ("max_amplitude_ratio", .jNum 8.2)
        , ("note", .jStr "Mock data - improved validation metrics") ] }
  , { id := 4
      name := "Comparative Edge"
      status := .pass
      description := "Outperforms Kuramoto control"
      requirement := "CPU ≤ 2x FPS, Regulation ≥ 25% better"
      details := .jObj
        [ ("cpu_efficiency_ratio", .jNum 0.04)
        , ("cpu_efficiency_threshold", .jNum 2.0)
        , ("cpu_efficiency_passed", .jBool true)
        , ("regulation_comparison_implemented", .jBool true)
        , ("regulation_passed", .jBool true)
        , ("regulation_improvement", .jNum 0.32)
        , ("note", .jStr "Mock data - simulated performance comparison") ] }
  , { id := 5
      name := "Visual Fidelity"
      status := .partialStatus
      description := "Figure generation with pixel-diff validation"
      requirement := "Fig 1 & Fig 2 pixel-diff < 2%"
      details := .jObj
        [ ("fig1_implemented", .jBool true)
        , ("fig2_implemented", .jBool false)
        , ("pixel_diff_validation", .jBool true)
        , ("reference_images_exist", .jBool true)
        , ("fig1_pixel_diff", .jNum 0.015)
        , ("note", .jStr "Mock data - partial visual validation") ] } ]

/-- `generateMockValidationStatus` (`src/unnamed/part_000`, lines 22–122):
overall score is `(passedLayers + partialLayers * 0.5) / totalLayers` and the
overall status is `'pass'` exactly when that score is at least `0.8`. -/
def generateMockValidationStatus (now : String) : ValidationStatus :=
  let passedLayers := (mockLayers.filter (fun l => l.status == .pass)).length
  let partialLayers := (mockLayers.filter (fun l => l.status == .partialStatus)).length
  let totalLayers := mockLayers.length
  let overallScore : ℚ := ((passedLayers : ℚ) + (partialLayers : ℚ) * 0.5) / (totalLayers : ℚ)
  let overallStatus : OverallStatus := if overallScore ≥ 0.8 then .pass else .fail
  { overall_status := overallStatus
    overall_score := overallScore
    layers := mockLayers
    last_updated := now }

/-- The five-layer list built in the `python.on('close', (code) => …)` handler
of the local-pipeline path; identical text appears in
`src/frontend/src/routes/validation-status/+server.ts` (lines 44–123) and in
`src/unnamed/part_000` (lines 159–238).  The handler receives the exit code
`code` of the spawned `run_validation.py` process; the layer list below never
consults it. -/
def localLayers (code : ℤ) : List ValidationLayer :=
  let _ := code
  [ { id := 1
      name := "Code-level Correctness"
      status := .fail
      description := "Unit & property tests for each formula"
      requirement := "pytest -q returns 0"
      details := .jObj
        [ ("total_tests", .jNum 12)
        , ("passed_tests", .jNum 7)
        , ("failed_tests", .jNum 5)
        , ("failures", .jArr
            [ .jStr "sigma bounds (hitting 0 and 1 exactly)"
            , .jStr "tanh bounds (hitting ±1 exactly)"
            , .jStr "missing _compute_S method"
            , .jStr "missing _compute_frequency_modulation method"
            , .jStr "property test bounds violations" ]) ] }
  , { id := 2
      name := "Simulation Fidelity"
      status := .partialStatus
      description := "Golden run byte-for-byte reproducibility"
      requirement := "SHA-256 hashes match reference"
      details := .jObj
        [ ("golden_run_implemented", .jBool true)
        , ("hash_validation_implemented", .jBool true)
        , ("reference_hashes_exist", .jBool false)
        , ("csv_hash", .jStr "121af74e644fe3ff647a52cb638844f56fc3ac337fef336549eacb207dbd759c")
        , ("png_hash", .jStr "02ceae783b5df8466d4d04b0b0d7d877c1534565fabe1b1b933134fa91d518e8") ] }
  , { id := 3
      name := "Metric Compliance"
      status := .fail
      description := "All 7 quantitative criteria pass"
      requirement := "All assertions pass, empty criteria_failures.csv"
      details := .jObj
        [ ("pass_rate", .jNum 0.714)
        , ("passed_metrics", .jNum 5)
        , ("total_metrics", .jNum 7)
        , ("failed_metrics", .jArr [.jStr "fluidity", .jStr "stability"])
        , ("fluidity_variance", .jNum 0.386)
        , ("fluidity_threshold", .jNum 0.01)
        , ("stability_percentage", .jNum 0.792)
        , ("stability_threshold", .jNum 0.95)
        , ("max_amplitude_ratio", .jNum 257.8) ] }
  , { id := 4
      name := "Comparative Edge"
      status := .partialStatus
      description := "Outperforms Kuramoto control"
      requirement := "CPU ≤ 2x FPS, Regulation ≥ 25% better"
      details := .jObj
        [ ("cpu_efficiency_ratio", .jNum 0.04)
        , ("cpu_efficiency_threshold", .jNum 2.0)
        , ("cpu_efficiency_passed", .jBool true)
        , ("regulation_comparison_implemented", .jBool false)
        , ("regulation_passed", .jNull) ] }
  , { id := 5
      name := "Visual Fidelity"
      status := .notImplemented
      description := "Figure generation with pixel-diff validation"
      requirement := "Fig 1 & Fig 2 pixel-diff < 2%"
      details := .jObj
        [ ("fig1_implemented", .jBool false)
        , ("fig2_implemented", .jBool false)
        , ("pixel_diff_validation", .jBool false)
        , ("reference_images_exist", .jBool false) ] } ]

/-- The report construction of the local-pipeline `close` handler
(`+server.ts` lines 125–136, `part_000` lines 240–251): overall score is
`passedLayers / totalLayers` (partial layers contribute nothing) and the
overall status is `'pass'` exactly when that score equals `1.0`. -/
def localValidationStatus (code : ℤ) (now : String) : ValidationStatus :=
  let layers := localLayers code
  let passedLayers := (layers.filter (fun l => l.status == .pass)).length
  let totalLayers := layers.length
  let overallScore : ℚ := (passedLayers : ℚ) / (totalLayers : ℚ)
  let overallStatus : OverallStatus := if overallScore = 1 then .pass else .fail
  { overall_status := overallStatus
    overall_score := overallScore
    layers := layers
    last_updated := now }

/-- Weight given to a layer by the specification's overall-score rule:
pass = 1, partial = 0.5, fail and not-implemented = 0.  Stated from the
spec's words, for comparison against the code's score computations. -/
def specLayerWeight : LayerStatus → ℚ
  | .pass => 1
  | .partialStatus => 0.5
  | _ => 0

/-- The specification's overall score: the weighted fraction of the layers,
using `specLayerWeight`.  Stated from the spec's words. -/
def specWeightedScore (layers : List ValidationLayer) : ℚ :=
  ((layers.map (fun l => specLayerWeight l.status)).sum) / (layers.length : ℚ)

/-- Status of the layer at position `i` of a layer list. -/
def layerStatusAt (layers : List ValidationLayer) (i : ℕ) : Option LayerStatus :=
  (layers[i]?).map (fun l => l.status)

/-- The `details` field named `key` of the layer at position `i`. -/
def layerFieldAt (layers : List ValidationLayer) (i : ℕ) (key : String) :
    Option (Option JVal) :=
  (layers[i]?).map (fun l => jLookup l.details key)

/-- `interface SimData` from the sim routes (`src/unnamed/part_001` and
`src/unnamed/part_002`): the `{t, C, S, r}` time series. -/
structure SimData where
  t : List ℝ
  C : List ℝ
  S : List ℝ
  r : List ℝ

/-- `const N = 100` in `generateMockSimData` (`src/unnamed/part_001`). -/
def mockSampleCount : ℕ := 100

/-- `const phi = 1.618` in `generateMockSimData`. -/
def mockPhi : ℝ := 1.618

/-- `const epsilon = 0.05` in `generateMockSimData`. -/
def mockEpsilon : ℝ := 0.05

/-- `const omega = 0.1` in `generateMockSimData`. -/
def mockOmega : ℝ := 0.1

/-- The sample times `t = Array.from({length: N}, (_, i) => i * 0.2)` of
`generateMockSimData` (`src/unnamed/part_001`, line 16). -/
def mockTimes : List ℝ :=
  (List.range mockSampleCount).map (fun (i : ℕ) => (i : ℝ) * 0.2)

/-- The per-sample spiral ratio of `generateMockSimData`
(`src/unnamed/part_001`, line 21):
`time => phi + epsilon * Math.sin(2 * Math.PI * omega * time)`. -/
noncomputable def spiralRatioFun (time : ℝ) : ℝ :=
  mockPhi + mockEpsilon * Real.sin (2 * Real.pi * mockOmega * time)

/-- The per-sample global signal of `generateMockSimData`
(`src/unnamed/part_001`, line 22). -/
noncomputable def mockSignalFun (time : ℝ) : ℝ :=
  Real.sin (2 * Real.pi * 0.1 * time) * Real.exp (-time * 0.01)

/-- The per-sample center signal of `generateMockSimData`
(`src/unnamed/part_001`, line 23). -/
noncomputable def mockCenterFun (time : ℝ) : ℝ :=
  0.5 + 0.3 * Real.cos (2 * Real.pi * 0.05 * time)

/-- `generateMockSimData` (`src/unnamed/part_001`, lines 14–26). -/
noncomputable def generateMockSimData : SimData :=
  { t := mockTimes
    C := mockTimes.map mockCenterFun
    S := mockTimes.map mockSignalFun
    r := mockTimes.map spiralRatioFun }

/-- The spec's spiral-ratio driver, stated from the spec's words for
comparison with the code: `r(t) = φ_target + ε * sin(2π ω t + θ)` with
`φ_target = 1.618`, `ε = 0.05`, `ω = 0.1`, `θ = 0`.  It is a function of the
time alone, so the driver is independent of the global signal `S(t)`. -/
noncomputable def specSpiralRatio (time : ℝ) : ℝ :=
  1.618 + 0.05 * Real.sin (2 * Real.pi * 0.1 * time + 0)

/-- A response body of the sim.json endpoint (`src/unnamed/part_002`): either
the serialized simulation data or a structured error record with an `error`
field and optional `details` field. -/
inductive SimRespBody where
  | ok (data : SimData)
  | err (error : String) (details : Option String)

/-- A response of the sim.json endpoint: HTTP status plus body. -/
structure SimResp where
  httpStatus : ℕ
  body : SimRespBody

/-- The observable events that decide the sim.json endpoint's response
(`src/unnamed/part_002`): the spawned process closing with an exit code, its
stderr text, and the result of `JSON.parse` on its stdout; the process
failing to start; or an exception reaching the outer `catch`. -/
inductive SimEvent where
  | procClose (code : ℤ) (stderrOutput : String) (parsed : Option SimData)
  | procError (message : String)
  | endpointException (message : String)

/-- The sim.json `GET` handler's response construction
(`src/unnamed/part_002`, lines 13–98), one case per event. -/
def simJsonEndpoint : SimEvent → SimResp
  | .procClose code errOut parsed =>
    if code ≠ 0 then
      { httpStatus := 500, body := .err "Simulation failed" (some errOut) }
    else
      match parsed with
      | some data => { httpStatus := 200, body := .ok data }
      | none => { httpStatus := 500, body := .err "Failed to parse simulation results" none }
  | .procError message =>
    { httpStatus := 500, body := .err "Failed to start simulation" (some message) }
  | .endpointException message =>
    { httpStatus := 500, body := .err "Internal server error" (some message) }

/-- An event is a failure of the sim.json command surface when the process
exits non-zero, its output fails to parse, it fails to start, or an internal
exception occurs. -/
def SimEvent.isFailure : SimEvent → Bool
  | .procClose code _ parsed => code != 0 || parsed.isNone
  | .procError _ => true
  | .endpointException _ => true

/-- Whether a response body is the structured error record (an `error` field,
optionally accompanied by `details`). -/
def SimRespBody.isStructuredError : SimRespBody → Bool
  | .err _ _ => true
  | .ok _ => false

end FPS

namespace FPS

/-- The mock report's overall status is always `'fail'`: its hard-coded layers
score `(2 + 3 * 0.5) / 5 = 0.7`, below the `0.8` threshold. -/
theorem generateMock_overall_status_fail (now : String) :
    (generateMockValidationStatus now).overall_status = OverallStatus.fail := by
  show (if ((2 : ℚ) + (3 : ℚ) * 0.5) / (5 : ℚ) ≥ 0.8 then OverallStatus.pass else .fail) = .fail
  norm_num

/-- The local-pipeline report's overall status is always `'fail'`: no
hard-coded layer has status `'pass'`, so the score is `0 / 5 ≠ 1`. -/
theorem local_overall_status_fail (code : ℤ) (now : String) :
    (localValidationStatus code now).overall_status = OverallStatus.fail := by
  show (if ((0 : ℕ) : ℚ) / ((5 : ℕ) : ℚ) = 1 then OverallStatus.pass else .fail) = .fail
  norm_num

/-- Claim C1: for every execution of the validation-status report
construction — the mock (serverless) path and the local-pipeline path — the
reported `overall_status` is `'pass'` exactly when all five layers have
status `'pass'` (and `'fail'`, the only other value, in every other case).
Both sides of each equivalence are false on the hard-coded layer lists, so
the equivalence holds on every execution. -/
theorem C1_overall_pass_iff_all_layers_pass :
    (∀ now : String,
        (generateMockValidationStatus now).overall_status = OverallStatus.pass ↔
          ∀ l ∈ (generateMockValidationStatus now).layers, l.status = LayerStatus.pass) ∧
    (∀ (code : ℤ) (now : String),
        (localValidationStatus code now).overall_status = OverallStatus.pass ↔
          ∀ l ∈ (localValidationStatus code now).layers, l.status = LayerStatus.pass) := by
  constructor
  · intro now
    apply iff_of_false
    · rw [generateMock_overall_status_fail]
      simp
    · intro h
      have h1 := h _ (List.mem_cons_self _ _)
      simp at h1
  · intro code now
    apply iff_of_false
    · rw [local_overall_status_fail]
      simp
    · intro h
      have h1 := h _ (List.mem_cons_self _ _)
      simp at h1

/-- Claim C10: the validation-status endpoint can never report overall
`'pass'`: on the mock path and on the local-pipeline path, for every exit
code of the spawned validation process, the constructed report has
`overall_status = 'fail'`. -/
theorem C10_overall_status_never_pass :
    (∀ now : String,
        (generateMockValidationStatus now).overall_status = OverallStatus.fail) ∧
    (∀ (code : ℤ) (now : String),
        (localValidationStatus code now).overall_status = OverallStatus.fail) :=
  ⟨generateMock_overall_status_fail, local_overall_status_fail⟩

end FPS

namespace FPS

/-- Claim C2, counterexample: on the local-pipeline path the report's
`overall_score` is `0/5 = 0`, not the weighted fraction of its layers
(`(0 + 0.5 + 0 + 0.5 + 0) / 5 = 0.2`): the code divides only the count of
`'pass'` layers by the total, giving `'partial'` layers no half credit. -/
theorem C2_counterexample_local_score_not_weighted :
    (localValidationStatus 0 "2025-01-01T00:00:00.000Z").overall_score ≠
      specWeightedScore (localValidationStatus 0 "2025-01-01T00:00:00.000Z").layers := by
  show ((0 : ℕ) : ℚ) / ((5 : ℕ) : ℚ) ≠
    ((0 : ℚ) + (0.5 + (0 + (0.5 + (0 + 0))))) / ((5 : ℕ) : ℚ)
  norm_num

/-- Claim C2, amended: only the mock (serverless) path computes
`overall_score` as the weighted fraction of the five layers (pass = 1,
partial = 0.5, fail and not-implemented = 0, divided by the layer count);
the local-pipeline path computes the unweighted fraction of `'pass'` layers,
which is `0` on its hard-coded layers even though their weighted fraction
is `0.2`. -/
theorem C2_amended_weighted_on_mock_plain_on_local :
    (∀ now : String,
        (generateMockValidationStatus now).overall_score =
          specWeightedScore (generateMockValidationStatus now).layers) ∧
    (∀ (code : ℤ) (now : String),
        (localValidationStatus code now).overall_score = 0 ∧
          specWeightedScore (localValidationStatus code now).layers = 0.2) := by
  constructor
  · intro now
    show ((2 : ℚ) + (3 : ℚ) * 0.5) / ((5 : ℕ) : ℚ) =
      ((0.5 : ℚ) + (1 + (0.5 + (1 + (0.5 + 0))))) / ((5 : ℕ) : ℚ)
    norm_num
  · intro code now
    constructor
    · show ((0 : ℕ) : ℚ) / ((5 : ℕ) : ℚ) = 0
      norm_num
    · show ((0 : ℚ) + (0.5 + (0 + (0.5 + (0 + 0))))) / ((5 : ℕ) : ℚ) = 0.2
      norm_num

/-- Claim C5, counterexample: even when the spawned validation process exits
with code `0` — its layer-1 requirement "pytest -q returns 0" satisfied — the
local-pipeline report's layer 1 still has status `'fail'`, so the reported L1
status is not determined by reading the process result code. -/
theorem C5_counterexample_exit_code_zero_still_fail :
    layerStatusAt (localLayers 0) 0 ≠ some LayerStatus.pass := by
  show some LayerStatus.fail ≠ some LayerStatus.pass
  simp

/-- Claim C5, amended: the layer-1 (code-level correctness) status is a
hard-coded constant that never consults the exit code of the spawned
test/validation process: `'fail'` on the local-pipeline path for every exit
code, and `'partial'` on the mock path. -/
theorem C5_amended_layer1_status_hardcoded :
    (∀ code : ℤ, layerStatusAt (localLayers code) 0 = some LayerStatus.fail) ∧
      layerStatusAt mockLayers 0 = some LayerStatus.partialStatus :=
  ⟨fun _ => rfl, rfl⟩

/-- Claim C7: on the local-pipeline path — the one whose layer-5 details
record `reference_images_exist: false` — the report degrades layer 5 to
`'not_implemented'` and still carries a complete five-layer report. -/
theorem C7_missing_reference_images_degrade_layer5 :
    ∀ (code : ℤ) (now : String),
      (localValidationStatus code now).layers.length = 5 ∧
        layerFieldAt (localValidationStatus code now).layers 4 "reference_images_exist" =
          some (some (JVal.jBool false)) ∧
        layerStatusAt (localValidationStatus code now).layers 4 =
          some LayerStatus.notImplemented :=
  fun _ _ => ⟨rfl, rfl, rfl⟩

/-- Claim C8: every report of the validation-status endpoint (mock path and
local-pipeline path) is a `ValidationStatus` record — `overall_status`,
`overall_score`, `layers`, `last_updated` — whose `layers` list has exactly
five entries, each a `ValidationLayer` record carrying id, name, status,
details, description and requirement, with ids 1,2,3,4,5 in ascending
order; `last_updated` carries the timestamp the handler was given. -/
theorem C8_report_structure :
    (∀ now : String,
        (generateMockValidationStatus now).layers.length = 5 ∧
          (generateMockValidationStatus now).layers.map (fun l => l.id) = [1, 2, 3, 4, 5] ∧
          (generateMockValidationStatus now).last_updated = now) ∧
    (∀ (code : ℤ) (now : String),
        (localValidationStatus code now).layers.length = 5 ∧
          (localValidationStatus code now).layers.map (fun l => l.id) = [1, 2, 3, 4, 5] ∧
          (localValidationStatus code now).last_updated = now) :=
  ⟨fun _ => ⟨rfl, rfl, rfl⟩, fun _ _ => ⟨rfl, rfl, rfl⟩⟩

end FPS

namespace FPS

/-- The code's per-sample spiral-ratio function agrees with the spec's driver
formula `φ_target + ε * sin(2π ω t + θ)` at `θ = 0`. -/
theorem spiralRatioFun_eq_spec : spiralRatioFun = specSpiralRatio := by
  funext time
  simp only [spiralRatioFun, specSpiralRatio, mockPhi, mockEpsilon, mockOmega, add_zero]

/-- Claim C3: every sample of the generated `r` series equals the spec's
spiral-ratio driver `r(t) = φ_target + ε * sin(2π ω t + θ)` (with
`φ_target = 1.618`, `ε = 0.05`, `ω = 0.1`, `θ = 0`) applied to the sample's
time; `specSpiralRatio` is a function of the time alone, so the value does
not depend on the global signal `S(t)`. -/
theorem C3_spiral_ratio_driver_formula :
    ∀ i : ℕ,
      (generateMockSimData.r)[i]? =
        ((generateMockSimData.t)[i]?).map specSpiralRatio := by
  intro i
  show (mockTimes.map spiralRatioFun)[i]? = (mockTimes[i]?).map specSpiralRatio
  rw [List.getElem?_map, spiralRatioFun_eq_spec]

/-- Claim C4: every sample of the generated `r` series is within the driver
amplitude `ε = 0.05` of the target `φ_target = 1.618`. -/
theorem C4_spiral_ratio_bounded :
    ∀ x ∈ generateMockSimData.r, |x - mockPhi| ≤ mockEpsilon := by
  intro x hx
  have hx' : x ∈ mockTimes.map spiralRatioFun := hx
  obtain ⟨time, -, rfl⟩ := List.mem_map.mp hx'
  show |mockPhi + mockEpsilon * Real.sin (2 * Real.pi * mockOmega * time) - mockPhi|
      ≤ mockEpsilon
  rw [add_sub_cancel_left, abs_mul]
  have h1 : |Real.sin (2 * Real.pi * mockOmega * time)| ≤ 1 :=
    Real.abs_sin_le_one _
  have h0 : (0 : ℝ) ≤ mockEpsilon := by norm_num [mockEpsilon]
  calc |mockEpsilon| * |Real.sin (2 * Real.pi * mockOmega * time)|
      ≤ |mockEpsilon| * 1 := mul_le_mul_of_nonneg_left h1 (abs_nonneg _)
    _ = mockEpsilon := by rw [mul_one, abs_of_nonneg h0]

/-- Witness for claim C4 at the trace's first sample, time `0 * 0.2`. -/
theorem C4_spiral_ratio_bounded_witness :
    spiralRatioFun (((0 : ℕ) : ℝ) * 0.2) ∈ generateMockSimData.r ∧
      |spiralRatioFun (((0 : ℕ) : ℝ) * 0.2) - mockPhi| ≤ mockEpsilon := by
  have h0 : (0 : ℕ) ∈ List.range mockSampleCount :=
    List.mem_range.mpr (by norm_num [mockSampleCount])
  have h1 : ((0 : ℕ) : ℝ) * 0.2 ∈ mockTimes :=
    List.mem_map_of_mem (fun (i : ℕ) => (i : ℝ) * 0.2) h0
  have hmem : spiralRatioFun (((0 : ℕ) : ℝ) * 0.2) ∈ generateMockSimData.r :=
    List.mem_map_of_mem spiralRatioFun h1
  exact ⟨hmem, C4_spiral_ratio_bounded _ hmem⟩

/-- Claim C6: every failure path of the sim.json command surface — the
simulation process exiting non-zero, its output failing to parse, the
process failing to start, or an internal exception — produces a response
whose body is the structured error record (an `error` field with optional
`details`), never the raw data path. -/
theorem C6_failure_paths_structured_error :
    ∀ e : SimEvent, e.isFailure = true →
      ((simJsonEndpoint e).body).isStructuredError = true := by
  intro e h
  cases e with
  | procClose code errOut parsed =>
    by_cases hc : code = 0
    · subst hc
      cases parsed with
      | some d => exact Bool.noConfusion h
      | none => rfl
    · simp [simJsonEndpoint, SimRespBody.isStructuredError, hc]
  | procError m => rfl
  | endpointException m => rfl

/-- Witness for claim C6 at the concrete failure event of the process
failing to start. -/
theorem C6_failure_paths_structured_error_witness :
    (SimEvent.procError "spawn python3 ENOENT").isFailure = true ∧
      ((simJsonEndpoint (SimEvent.procError "spawn python3 ENOENT")).body).isStructuredError
        = true :=
  ⟨rfl, C6_failure_paths_structured_error _ rfl⟩

/-- The `t` values of the generated trace are strictly increasing. -/
theorem mockTimes_pairwise : List.Pairwise (· < ·) mockTimes := by
  rw [mockTimes]
  refine List.Pairwise.map _ (fun a b hab => ?_) (List.pairwise_lt_range mockSampleCount)
  show (a : ℝ) * 0.2 < (b : ℝ) * 0.2
  have h' : (a : ℝ) < (b : ℝ) := by exact_mod_cast hab
  exact mul_lt_mul_of_pos_right h' (by norm_num)

/-- Claim C9: the generated Run Trace starts at `t = 0` and ends at
`t = 19.8` — the `T` of the interval `[0, T]` it spans — has length
`⌈T/dt⌉ + 1 = ⌈19.8/0.2⌉ + 1 = 100`, strictly increasing `t` values, and
`t`, `S`, `C`, `r` series all of equal length. -/
theorem C9_trace_shape :
    (generateMockSimData.t)[0]? = some (0 : ℝ) ∧
    (generateMockSimData.t)[99]? = some (19.8 : ℝ) ∧
    generateMockSimData.t.length = ⌈(19.8 : ℝ) / 0.2⌉₊ + 1 ∧
    List.Pairwise (· < ·) generateMockSimData.t ∧
    generateMockSimData.S.length = generateMockSimData.t.length ∧
    generateMockSimData.C.length = generateMockSimData.t.length ∧
    generateMockSimData.r.length = generateMockSimData.t.length := by
  refine ⟨?_, ?_, ?_, mockTimes_pairwise, ?_, ?_, ?_⟩
  · show (mockTimes)[0]? = some (0 : ℝ)
    rw [mockTimes, List.getElem?_map,
      List.getElem?_range (show 0 < mockSampleCount by norm_num [mockSampleCount])]
    show some (((0 : ℕ) : ℝ) * 0.2) = some (0 : ℝ)
    norm_num
  · show (mockTimes)[99]? = some (19.8 : ℝ)
    rw [mockTimes, List.getElem?_map,
      List.getElem?_range (show 99 < mockSampleCount by norm_num [mockSampleCount])]
    show some (((99 : ℕ) : ℝ) * 0.2) = some (19.8 : ℝ)
    norm_num
  · show mockTimes.length = ⌈(19.8 : ℝ) / 0.2⌉₊ + 1
    rw [mockTimes, List.length_map, List.length_range, mockSampleCount]
    rw [show (19.8 : ℝ) / 0.2 = ((99 : ℕ) : ℝ) by norm_num, Nat.ceil_natCast]
  · show (mockTimes.map mockSignalFun).length = mockTimes.length
    rw [List.length_map]
  · show (mockTimes.map mockCenterFun).length = mockTimes.length
    rw [List.length_map]
  · show (mockTimes.map spiralRatioFun).length = mockTimes.length
    rw [List.length_map]

end FPS
